import Mathlib

/-!
Shallow embedding of the Football-empire bot (src/database.py, src/main.py).

The persistent store (PostgreSQL reached through asyncpg) is modelled as an
explicit `DB` value; every SQL statement executed by `Database._execute`
becomes one pure function `DB → DB` (each statement runs on its own pooled
connection in the source, so the state between two statements of the same
Python method is an observable point for other actors).  Monetary amounts
(`REAL` columns, Python floats) are modelled as exact integers: every amount
the flows of this system produce is integral.  Timestamps (`datetime.now()`)
are modelled by a logical clock incremented at each transaction insert.
Fallible Python code is modelled with `Except PyErr`.
-/

/-- Row of the `teams` table (database.py `create_tables`). -/
structure Team where
  id : Nat
  name : String
  description : String
  manager_id : Int
  budget : Int
  stadium_level : Nat
deriving DecidableEq, Repr

/-- Row of the `transactions` table (database.py `create_tables`). -/
structure Txn where
  id : Nat
  team_id : Nat
  amount : Int
  reason : String
  date : Nat
deriving DecidableEq, Repr

/-- The whole persistent store: the four tables plus the SERIAL counters and
the logical clock standing for `datetime.now()`. -/
structure DB where
  teams : List Team
  transactions : List Txn
  admins : List Int
  settings : List (String × String)
  nextTeamId : Nat
  nextTxnId : Nat
  clock : Nat
deriving DecidableEq, Repr

/-- The store right after `create_tables` + `ensure_initial_settings`. -/
def initialDB : DB :=
  { teams := [], transactions := [], admins := [],
    settings := [("maintenance_mode", "OFF")],
    nextTeamId := 1, nextTxnId := 1, clock := 0 }

/-- Python runtime errors that the embedded handlers can raise. -/
inductive PyErr where
  | typeError (msg : String)
  | keyErrorNat (key : Nat)
  | keyErrorStr (key : String)
  | connectionError
deriving DecidableEq, Repr

/-- A dynamically typed Python argument (used to model positional calls whose
arity is only checked at run time). -/
inductive PyVal where
  | nat (n : Nat)
  | int (i : Int)
deriving DecidableEq, Repr

/-- Equality on `Except` results is decidable when it is on both sides. -/
def exceptDecEq {ε α : Type} [DecidableEq ε] [DecidableEq α] :
    (a b : Except ε α) → Decidable (a = b)
  | .error e, .error f =>
      if h : e = f then .isTrue (by rw [h])
      else .isFalse (by intro hh; cases hh; exact h rfl)
  | .error _, .ok _ => .isFalse (by intro h; cases h)
  | .ok _, .error _ => .isFalse (by intro h; cases h)
  | .ok a, .ok b =>
      if h : a = b then .isTrue (by rw [h])
      else .isFalse (by intro hh; cases hh; exact h rfl)

instance {ε α : Type} [DecidableEq ε] [DecidableEq α] : DecidableEq (Except ε α) :=
  exceptDecEq

/- ### database.py: team methods -/

/-- Model of `Database.add_team` (database.py lines 84-91): INSERT a new team with
`stadium_level` 0; the UNIQUE constraint on `manager_id` turns a duplicate
manager into a caught `UniqueViolationError`, returned as `false` with the
store untouched. -/
def add_team (db : DB) (name description : String) (manager_id initial_budget : Int) :
    DB × Bool :=
  if db.teams.any (fun t => t.manager_id == manager_id) then
    (db, false)
  else
    ({ db with
        teams := db.teams ++
          [{ id := db.nextTeamId, name := name, description := description,
             manager_id := manager_id, budget := initial_budget, stadium_level := 0 }],
        nextTeamId := db.nextTeamId + 1 },
     true)

/-- Model of `Database.get_team_by_user` (database.py line 93): `SELECT * FROM teams
WHERE manager_id = $1`, one row. -/
def get_team_by_user (db : DB) (user_id : Int) : Option Team :=
  db.teams.find? (fun t => t.manager_id == user_id)

/-- Model of `Database.get_team_by_id` (database.py line 102). -/
def get_team_by_id (db : DB) (team_id : Nat) : Option Team :=
  db.teams.find? (fun t => t.id == team_id)

/-- First statement of `Database.delete_team` (database.py line 106):
`DELETE FROM transactions WHERE team_id = $1`. -/
def deleteTransactionsStmt (db : DB) (team_id : Nat) : DB :=
  { db with transactions := db.transactions.filter (fun e => e.team_id != team_id) }

/-- Second statement of `Database.delete_team` (database.py line 107):
`DELETE FROM teams WHERE id = $1`; the `ON DELETE CASCADE` clause on
`transactions.team_id` also removes the remaining entries of the team. -/
def deleteTeamStmt (db : DB) (team_id : Nat) : DB :=
  { db with
      teams := db.teams.filter (fun t => t.id != team_id),
      transactions := db.transactions.filter (fun e => e.team_id != team_id) }

/-- Model of `Database.delete_team` (database.py lines 105-107): the two DELETE
statements in order, each on its own pooled connection. -/
def delete_team (db : DB) (team_id : Nat) : DB :=
  deleteTeamStmt (deleteTransactionsStmt db team_id) team_id

/-- Model of `Database.update_team_manager` (database.py lines 109-114): the UPDATE
raises a caught `UniqueViolationError` (returned as `false`, store untouched)
exactly when a row is actually updated and a different row already holds the
new `manager_id`. -/
def update_team_manager (db : DB) (team_id : Nat) (new_manager_id : Int) : DB × Bool :=
  if db.teams.any (fun t => t.id == team_id) &&
     db.teams.any (fun t => t.manager_id == new_manager_id && t.id != team_id) then
    (db, false)
  else
    ({ db with
        teams := db.teams.map (fun t =>
          if t.id == team_id then { t with manager_id := new_manager_id } else t) },
     true)

/- ### database.py: transaction methods -/

/-- First statement of `Database.add_transaction` (database.py line 119):
`INSERT INTO transactions (team_id, amount, reason, date) VALUES ...`.
The foreign key `team_id REFERENCES teams(id)` rejects an insert for an
absent team; that raise aborts the method, modelled as a no-op here. -/
def insertTransactionStmt (db : DB) (team_id : Nat) (amount : Int) (reason : String) : DB :=
  if db.teams.any (fun t => t.id == team_id) then
    { db with
        transactions := db.transactions ++
          [{ id := db.nextTxnId, team_id := team_id, amount := amount,
             reason := reason, date := db.clock }],
        nextTxnId := db.nextTxnId + 1,
        clock := db.clock + 1 }
  else db

/-- Second statement of `Database.add_transaction` (database.py line 121):
`UPDATE teams SET budget = budget + $1 WHERE id = $2` (a no-op when no row
matches). -/
def updateBudgetStmt (db : DB) (team_id : Nat) (amount : Int) : DB :=
  { db with
      teams := db.teams.map (fun t =>
        if t.id == team_id then { t with budget := t.budget + amount } else t) }

/-- Model of `Database.add_transaction` (database.py lines 117-121): the INSERT and the
budget UPDATE, two separate statements on separate pooled connections, no
enclosing transaction; the Python method returns `None`. -/
def add_transaction (db : DB) (team_id : Nat) (amount : Int) (reason : String) : DB :=
  updateBudgetStmt (insertTransactionStmt db team_id amount reason) team_id amount

/-- The states observable (by a crash or a concurrent reader) while
`add_transaction` runs: before, between the two statements, and after. -/
def add_transaction_states (db : DB) (team_id : Nat) (amount : Int) (reason : String) :
    List DB :=
  [db, insertTransactionStmt db team_id amount reason, add_transaction db team_id amount reason]

/-- The states observable while `delete_team` runs. -/
def delete_team_states (db : DB) (team_id : Nat) : List DB :=
  [db, deleteTransactionsStmt db team_id, delete_team db team_id]

/-- Filter tag of `Database.get_transactions`. -/
inductive TransType where
  | income
  | expense
deriving DecidableEq, Repr

/-- Insertion step for `ORDER BY date DESC` (stable on equal dates). -/
def insertByDate (e : Txn) : List Txn → List Txn
  | [] => [e]
  | x :: xs => if x.date ≥ e.date then x :: insertByDate e xs else e :: x :: xs

/-- Model of `ORDER BY date DESC`. -/
def sortByDateDesc (l : List Txn) : List Txn :=
  l.foldr insertByDate []

/-- Model of `Database.get_transactions` (database.py lines 123-131): the entries
of the team, optionally sign-filtered, newest first, at most 20. -/
def get_transactions (db : DB) (team_id : Nat) (trans_type : Option TransType) :
    List Txn :=
  let base := db.transactions.filter (fun e => e.team_id == team_id)
  let filtered :=
    match trans_type with
    | some .income => base.filter (fun e => decide (0 < e.amount))
    | some .expense => base.filter (fun e => decide (e.amount < 0))
    | none => base
  (sortByDateDesc filtered).take 20

/- ### database.py: admins / settings / stadium -/

/-- Model of `Database.add_admin` (database.py lines 134-139). -/
def add_admin (db : DB) (user_id : Int) : DB × Bool :=
  if db.admins.any (fun a => a == user_id) then (db, false)
  else ({ db with admins := db.admins ++ [user_id] }, true)

/-- Model of `Database.is_admin_in_db` (database.py lines 149-152). -/
def is_admin_in_db (db : DB) (user_id : Int) : Bool :=
  db.admins.any (fun a => a == user_id)

/-- Model of `Database.get_setting` (database.py lines 154-155). -/
def get_setting (db : DB) (key : String) : Option String :=
  (db.settings.find? (fun kv => kv.1 == key)).map (fun kv => kv.2)

/-- Model of `Database.set_setting` (database.py lines 157-158): plain UPDATE. -/
def set_setting (db : DB) (key value : String) : DB :=
  { db with settings := db.settings.map (fun kv => if kv.1 == key then (kv.1, value) else kv) }

/-- Body of `Database.upgrade_stadium` (database.py lines 160-163): updates
only `stadium_level`; its `cost` parameter is unused ("the deduction happens
through add_transaction"). -/
def upgrade_stadium (db : DB) (team_id : Nat) (new_level : Nat) : DB :=
  { db with
      teams := db.teams.map (fun t =>
        if t.id == team_id then { t with stadium_level := new_level } else t) }

/-- The Python method `upgrade_stadium(self, team_id, cost, new_level)` seen
as a dynamically checked positional call: three arguments bind
`team_id`, `cost`, `new_level` and run the body; any other argument list
raises `TypeError` before the body executes (Python arity checking). -/
def upgrade_stadium_apply (db : DB) (args : List PyVal) : Except PyErr DB :=
  match args with
  | [PyVal.nat team_id, _cost, PyVal.nat new_level] =>
      .ok (upgrade_stadium db team_id new_level)
  | _ => .error (.typeError "upgrade_stadium missing required positional argument")

/- ### main.py: configuration and access gate -/

/-- Model of `STADIUM_LEVELS` (main.py lines 25-30): tier → (display name, capacity,
cost); a key outside 0..3 is a `KeyError` at the lookup site. -/
structure StadiumInfo where
  name : String
  capacity : Nat
  cost : Int
deriving DecidableEq, Repr

def STADIUM_LEVELS : Nat → Option StadiumInfo
  | 0 => some { name := "Базовый стадион", capacity := 10000, cost := 0 }
  | 1 => some { name := "Малый", capacity := 25000, cost := 5000000 }
  | 2 => some { name := "Средний", capacity := 50000, cost := 15000000 }
  | 3 => some { name := "Крупный", capacity := 80000, cost := 35000000 }
  | _ => none

def MAX_STADIUM_LEVEL : Nat := 3

/-- Model of `Maintenance.is_on` (main.py lines 47-52), for a configured deployment
(`db` present). -/
def maintenance_is_on (db : DB) : Bool :=
  get_setting db "maintenance_mode" == some "ON"

/-- Model of `check_is_admin` (main.py lines 70-75): the configured owner, or a member
of the `admins` table. `ownerId` stands for the `OWNER_ID` environment
configuration. -/
def check_is_admin (ownerId : Int) (db : DB) (user_id : Int) : Bool :=
  user_id == ownerId || is_admin_in_db db user_id

/- ### main.py: FSM sessions -/

/-- The `AdminStates` states group (main.py lines 55-64); `idle` stands for a
cleared FSM context (`state.clear()` / no active state). -/
inductive AdminState where
  | idle
  | waiting_team_name
  | waiting_team_desc
  | waiting_manager_id
  | waiting_budget
  | waiting_team_select
  | waiting_trans_amount
  | waiting_trans_reason
  | waiting_new_manager_id
  | waiting_new_admin_id
deriving DecidableEq, Repr

/-- The fields accumulated through `state.update_data` across the flows. -/
structure FSMData where
  name : Option String
  desc : Option String
  manager_id : Option Int
  amount : Option Int
  team_id : Option Nat
deriving DecidableEq, Repr

def emptyData : FSMData :=
  { name := none, desc := none, manager_id := none, amount := none, team_id := none }

/-- FSM context of one actor (aiogram): current state plus accumulated data. -/
structure Session where
  state : AdminState
  data : FSMData
deriving DecidableEq, Repr

/-- Model of `state.clear()`: back to no state, no data. -/
def clearSession : Session :=
  { state := .idle, data := emptyData }

/- ### main.py: responses

Each constructor stands for one literal `message.answer` / `edit_text` /
`callback.answer` text of main.py, carrying the dynamic values interpolated
into that text; rendering the surrounding text is transport concern. -/

inductive Resp where
  /-- Text "Бот временно находится на техническом обслуживании..." (line 121). -/
  | maintenanceUnavailable
  /-- The admin greeting of `cmd_start` (lines 125-129); owner or admin role. -/
  | adminGreeting (isOwner : Bool)
  /-- The manager welcome of `cmd_start` (line 135). -/
  | userWelcome (teamName : String)
  /-- The no-access reply of `cmd_start` (line 137). -/
  | noAccess (userId : Int)
  /-- Text "Команда не найдена." alerts (lines 492, 515, 562). -/
  | alertTeamNotFound
  /-- The club report of `usr_show_info` (lines 500-505). -/
  | clubInfo (name description : String) (budget : Int) (stadium : String) (capacity : Nat)
  /-- The terminal-tier text of `usr_show_upgrade_stadium` (line 525). -/
  | maxStadium (stadium : String) (capacity : Nat)
  /-- The upgrade offer of `usr_show_upgrade_stadium` (lines 538-550). -/
  | upgradeOffer (canAfford : Bool) (cost : Int) (budget : Int)
  /-- Text "Недостаточно средств!" (line 573). -/
  | alertInsufficientFunds
  /-- The success report of `usr_do_upgrade_stadium` (lines 589-596). -/
  | upgradeDone (stadium : String) (capacity : Nat) (cost : Int) (newBudget : Int)
  /-- The finance report of `usr_show_finance` (lines 621-630). -/
  | financeReport (kind : Option TransType) (txns : List Txn)
  /-- Text "ID должен быть числом. Попробуйте еще раз." (lines 251, 411). -/
  | idMustBeDigits
  /-- Text "Введите начальный бюджет (число):" (line 254). -/
  | askBudget
  /-- Text "Бюджет должен быть числом. Повторите ввод." (line 262). -/
  | budgetMustBeNumber
  /-- The creation success summary of `adm_finish_team` (line 270). -/
  | teamCreated (name : String) (managerId : Int) (budget : Int)
  /-- Text "Ошибка. Возможно, у этого пользователя уже есть команда." (line 272). -/
  | teamCreateConflict
  /-- The deletion success text of `adm_execute_delete` (line 380). -/
  | deleteSuccess (name : String) (teamId : Nat)
  /-- Text "Ошибка. Команда не найдена." of `adm_execute_delete` (line 385). -/
  | deleteNotFound
  /-- The success text of `adm_money_finish` (line 475). -/
  | transDone (amount : Int) (reason : String) (clubName : String) (newBudget : Int)
  /-- The best-effort manager notification of `adm_money_finish` (line 479). -/
  | notifyManager (managerId : Int) (amount : Int) (reason : String) (balance : Int)
deriving DecidableEq, Repr

/- ### main.py: input validation helpers -/

/-- Python `str.isdigit()` on the inputs these handlers receive: nonempty and
all decimal digits. -/
def pyIsDigit (s : String) : Bool :=
  !s.data.isEmpty && s.data.all (fun c => c.isDigit)

/-- Python `int(s)` for an all-digit `s`. -/
def strToNat (s : String) : Nat :=
  s.data.foldl (fun a c => a * 10 + (c.toNat - 48)) 0

/-- Models `float(s)` (main.py lines 260, 456) on the monetary inputs this
system handles: an optional sign followed by decimal digits, read as an exact
integer.  (Python `float` also accepts fractional and exponent forms; amounts
are modelled as exact integers throughout.) -/
def pyNumber (s : String) : Option Int :=
  match s.data with
  | [] => none
  | '-' :: rest =>
      if rest ≠ [] ∧ rest.all (fun c => c.isDigit) then
        some (-(Int.ofNat (strToNat (String.mk rest))))
      else none
  | '+' :: rest =>
      if rest ≠ [] ∧ rest.all (fun c => c.isDigit) then
        some (Int.ofNat (strToNat (String.mk rest)))
      else none
  | l =>
      if l.all (fun c => c.isDigit) then some (Int.ofNat (strToNat s)) else none

/- ### main.py: handlers

Handlers are modelled under a configured deployment (`db` and `bot` present):
the `if not db` stubs of main.py are unreachable there.  Each handler takes
the store (and, for FSM message handlers, the session of the actor) and returns the
new store (and session) together with the emitted responses, or the Python
error that escaped the handler. -/

/-- Model of `cmd_start` (main.py lines 111-137): admin check, then the maintenance
gate for non-admins, then the role-specific greeting. -/
def cmd_start (ownerId : Int) (db : DB) (user_id : Int) : DB × List Resp :=
  let is_admin := check_is_admin ownerId db user_id
  if !is_admin && maintenance_is_on db then
    (db, [.maintenanceUnavailable])
  else if is_admin then
    (db, [.adminGreeting (user_id == ownerId)])
  else
    match get_team_by_user db user_id with
    | some team => (db, [.userWelcome team.name])
    | none => (db, [.noAccess user_id])

/-- Model of `usr_show_info` (main.py lines 487-508): no maintenance check; renders the
club report (the `STADIUM_LEVELS` lookup on a level outside the table would
raise `KeyError`). -/
def usr_show_info (db : DB) (user_id : Int) : DB × Except PyErr (List Resp) :=
  match get_team_by_user db user_id with
  | none => (db, .ok [.alertTeamNotFound])
  | some team =>
      match STADIUM_LEVELS team.stadium_level with
      | none => (db, .error (.keyErrorNat team.stadium_level))
      | some info =>
          (db, .ok [.clubInfo team.name team.description team.budget info.name info.capacity])

/-- Model of `usr_show_upgrade_stadium` (main.py lines 510-555): looks up the current
level, refuses at `MAX_STADIUM_LEVEL` with the terminal text, otherwise offers
the next level with the affordability flag. -/
def usr_show_upgrade_stadium (db : DB) (user_id : Int) : DB × Except PyErr (List Resp) :=
  match get_team_by_user db user_id with
  | none => (db, .ok [.alertTeamNotFound])
  | some team =>
      match STADIUM_LEVELS team.stadium_level with
      | none => (db, .error (.keyErrorNat team.stadium_level))
      | some cur =>
          if team.stadium_level ≥ MAX_STADIUM_LEVEL then
            (db, .ok [.maxStadium cur.name cur.capacity])
          else
            match STADIUM_LEVELS (team.stadium_level + 1) with
            | none => (db, .error (.keyErrorNat (team.stadium_level + 1)))
            | some nxt =>
                (db, .ok [.upgradeOffer (team.budget ≥ nxt.cost) nxt.cost team.budget])

/-- Model of `usr_do_upgrade_stadium` (main.py lines 557-597): loads the club, looks up
the cost of the requested level (`KeyError` beyond the table), fails fast on
affordability, then calls `db.upgrade_stadium(team_id, new_level)` — a
two-argument call to the three-parameter method — and, past it, posts the
offsetting transaction and reports the re-read budget. -/
def usr_do_upgrade_stadium (db : DB) (user_id : Int) (new_level : Nat) :
    DB × Except PyErr (List Resp) :=
  match get_team_by_user db user_id with
  | none => (db, .ok [.alertTeamNotFound])
  | some team =>
      match STADIUM_LEVELS new_level with
      | none => (db, .error (.keyErrorNat new_level))
      | some info =>
          if team.budget < info.cost then
            (db, .ok [.alertInsufficientFunds])
          else
            match upgrade_stadium_apply db [.nat team.id, .nat new_level] with
            | .error e => (db, .error e)
            | .ok db1 =>
                let reason := "Улучшение стадиона до уровня " ++ info.name
                let db2 := add_transaction db1 team.id (-info.cost) reason
                match get_team_by_user db2 user_id with
                | none => (db2, .error (.typeError "argument of type NoneType"))
                | some t2 =>
                    (db2, .ok [.upgradeDone info.name info.capacity info.cost t2.budget])

/-- Model of `usr_show_finance` (main.py lines 599-635): pick the filter from the
button, list the recent entries of the club. -/
def usr_show_finance (db : DB) (user_id : Int) (kind : Option TransType) :
    DB × Except PyErr (List Resp) :=
  match get_team_by_user db user_id with
  | none => (db, .ok [])
  | some team =>
      (db, .ok [.financeReport kind (get_transactions db team.id kind)])

/-- Model of `adm_set_manager` (main.py lines 248-255): the `waiting_manager_id` step;
a non-digit input re-prompts without touching the session, a digit input
stores `manager_id` and advances to `waiting_budget`. -/
def adm_set_manager (s : Session) (text : String) : Session × List Resp :=
  if !pyIsDigit text then
    (s, [.idMustBeDigits])
  else
    ({ state := .waiting_budget,
       data := { s.data with manager_id := some (Int.ofNat (strToNat text)) } },
     [.askBudget])

/-- Model of `adm_finish_team` (main.py lines 257-274): the `waiting_budget` step; a
non-numeric input re-prompts without touching the session; a numeric input
reads the accumulated `name`/`desc`/`manager_id` (a missing key would be a
`KeyError`), commits through `add_team`, reports, and clears the session
either way. -/
def adm_finish_team (db : DB) (s : Session) (text : String) :
    DB × Session × Except PyErr (List Resp) :=
  match pyNumber text with
  | none => (db, s, .ok [.budgetMustBeNumber])
  | some budget =>
      match s.data.name with
      | none => (db, s, .error (.keyErrorStr "name"))
      | some nm =>
          match s.data.desc with
          | none => (db, s, .error (.keyErrorStr "desc"))
          | some ds =>
              match s.data.manager_id with
              | none => (db, s, .error (.keyErrorStr "manager_id"))
              | some mgr =>
                  let r := add_team db nm ds mgr budget
                  if r.2 then
                    (r.1, clearSession, .ok [.teamCreated nm mgr budget])
                  else
                    (r.1, clearSession, .ok [.teamCreateConflict])

/-- Model of `adm_execute_delete` (main.py lines 367-387): re-reads the selected club;
when present, deletes it and clears the session; when absent, reports the
not-found text (the session is left as it was). -/
def adm_execute_delete (db : DB) (s : Session) : DB × Session × List Resp :=
  match s.data.team_id.bind (get_team_by_id db) with
  | some team =>
      let tid := s.data.team_id.getD 0
      (delete_team db tid, clearSession, [.deleteSuccess team.name tid])
  | none =>
      (db, s, [.deleteNotFound])

/-- Model of `adm_money_finish` (main.py lines 463-483): the `waiting_trans_reason`
step.  `commitFails` injects a store failure (e.g. connectivity loss) at the
`db.add_transaction` call: that raise propagates out of the handler, so
nothing past it — including the final `state.clear()` — runs.  `notifyFails`
injects a transport failure at `bot.send_message`, the only call wrapped in
`try/except`; the handler logs it and still clears the session. -/
def adm_money_finish (db : DB) (commitFails notifyFails : Bool) (reasonText : String)
    (s : Session) : DB × Session × Except PyErr (List Resp) :=
  match s.data.team_id with
  | none => (db, s, .error (.keyErrorStr "team_id"))
  | some tid =>
      match s.data.amount with
      | none => (db, s, .error (.keyErrorStr "amount"))
      | some amt =>
          if commitFails then
            (db, s, .error .connectionError)
          else
            let db1 := add_transaction db tid amt reasonText
            match get_team_by_id db1 tid with
            | none => (db1, s, .error (.typeError "argument of type NoneType"))
            | some team =>
                let msgs := [Resp.transDone amt reasonText team.name team.budget]
                let msgs :=
                  if notifyFails then msgs
                  else msgs ++ [Resp.notifyManager team.manager_id amt reasonText team.budget]
                (db1, clearSession, .ok msgs)

/- ### main.py: the non-FSM action surface -/

/-- The command and callback actions a plain actor can trigger outside any
FSM flow. -/
inductive BotAction where
  | start
  | usrInfo
  | usrUpgradeMenu
  | doUpgrade (level : Nat)
  | usrExpenses
  | usrIncomes
  | usrHistory
deriving DecidableEq, Repr

/-- Routing of the non-FSM actions to their main.py handlers.  Only
`cmd_start` consults the maintenance flag; none of the callback handlers do. -/
def dispatch (ownerId : Int) (db : DB) (user_id : Int) :
    BotAction → DB × Except PyErr (List Resp)
  | .start => let r := cmd_start ownerId db user_id; (r.1, .ok r.2)
  | .usrInfo => usr_show_info db user_id
  | .usrUpgradeMenu => usr_show_upgrade_stadium db user_id
  | .doUpgrade level => usr_do_upgrade_stadium db user_id level
  | .usrExpenses => usr_show_finance db user_id (some .expense)
  | .usrIncomes => usr_show_finance db user_id (some .income)
  | .usrHistory => usr_show_finance db user_id none

/- ### Derived notions used by the stated properties -/

/-- Sum of the amounts of the entries of one club within an entry list. -/
def ledgerSumL : List Txn → Nat → Int
  | [], _ => 0
  | e :: l, tid => (if e.team_id = tid then e.amount else 0) + ledgerSumL l tid

/-- Sum of the amounts of all ledger entries of club `tid`. -/
def ledgerSum (db : DB) (tid : Nat) : Int :=
  ledgerSumL db.transactions tid

/-- The balance invariant of the spec: the stored balance of every club equals the sum
of the amounts of its ledger entries. -/
def ledger_inv (db : DB) : Prop :=
  ∀ t ∈ db.teams, t.budget = ledgerSum db t.id

instance : DecidablePred ledger_inv := fun db =>
  inferInstanceAs (Decidable (∀ t ∈ db.teams, t.budget = ledgerSum db t.id))

/-- SERIAL-column discipline: every stored id is below the next fresh id. -/
def WFDB (db : DB) : Prop :=
  (∀ t ∈ db.teams, t.id < db.nextTeamId) ∧
  (∀ e ∈ db.transactions, e.team_id < db.nextTeamId)

instance : DecidablePred WFDB := fun db =>
  inferInstanceAs (Decidable ((∀ t ∈ db.teams, t.id < db.nextTeamId) ∧
    (∀ e ∈ db.transactions, e.team_id < db.nextTeamId)))

/-- The store operations of the observable vocabulary of the spec, routed to the
database.py methods that implement them. -/
inductive Op where
  | createClub (name description : String) (ownerId initialBalance : Int)
  | appendTxn (teamId : Nat) (amount : Int) (reason : String)
  | setTier (teamId : Nat) (newTier : Nat)
  | reassignOwner (teamId : Nat) (newOwnerId : Int)
  | deleteClub (teamId : Nat)
deriving DecidableEq, Repr

def applyOp (op : Op) (db : DB) : DB :=
  match op with
  | .createClub n d o i => (add_team db n d o i).1
  | .appendTxn tid amt r => add_transaction db tid amt r
  | .setTier tid lvl => upgrade_stadium db tid lvl
  | .reassignOwner tid o => (update_team_manager db tid o).1
  | .deleteClub tid => delete_team db tid

def applyOps (ops : List Op) (db : DB) : DB :=
  ops.foldl (fun db op => applyOp op db) db

/-- Model of `op` creates no club with a non-zero initial balance. -/
def createsZeroInit (op : Op) : Prop :=
  ∀ n d o i, op = .createClub n d o i → i = 0

instance : DecidablePred createsZeroInit := fun op =>
  match op with
  | .createClub n d o i =>
      if h : i = 0 then
        .isTrue (fun _ _ _ _ he => by cases he; exact h)
      else
        .isFalse (fun hz => h (hz n d o i rfl))
  | .appendTxn tid amt r => .isTrue (fun _ _ _ _ he => by cases he)
  | .setTier tid lvl => .isTrue (fun _ _ _ _ he => by cases he)
  | .reassignOwner tid o => .isTrue (fun _ _ _ _ he => by cases he)
  | .deleteClub tid => .isTrue (fun _ _ _ _ he => by cases he)

/- ### Helper lemmas -/

theorem ledgerSumL_append (l₁ l₂ : List Txn) (tid : Nat) :
    ledgerSumL (l₁ ++ l₂) tid = ledgerSumL l₁ tid + ledgerSumL l₂ tid := by
  induction l₁ with
  | nil => simp [ledgerSumL]
  | cons e l ih => simp [ledgerSumL, ih]; ring

theorem ledgerSumL_filter_ne (l : List Txn) (tid tid' : Nat) (h : tid' ≠ tid) :
    ledgerSumL (l.filter (fun e => e.team_id != tid)) tid' = ledgerSumL l tid' := by
  induction l with
  | nil => simp [ledgerSumL]
  | cons e l ih =>
      by_cases he : e.team_id = tid
      · simp [List.filter_cons, he, ledgerSumL, Ne.symm h, ih]
      · simp [List.filter_cons, he, ledgerSumL, ih]

theorem ledgerSumL_fresh (l : List Txn) (n : Nat) (h : ∀ e ∈ l, e.team_id < n) :
    ledgerSumL l n = 0 := by
  induction l with
  | nil => rfl
  | cons e l ih =>
      have he : e.team_id ≠ n := by have := h e (by simp); omega
      simp [ledgerSumL, he, ih (fun e hm => h e (by simp [hm]))]

theorem find?_map_id_pres (l : List Team) (f : Team → Team)
    (hf : ∀ t, (f t).id = t.id) (tid : Nat) :
    (l.map f).find? (fun t => t.id == tid) =
      ((l.find? (fun t => t.id == tid)).map f) := by
  induction l with
  | nil => rfl
  | cons t l ih =>
      by_cases h : t.id = tid
      · simp [List.find?_cons, hf, h]
      · simp [List.find?_cons, hf, h, ih]

theorem find?_filter_ne (l : List Team) (tid : Nat) :
    (l.filter (fun t => t.id != tid)).find? (fun t => t.id == tid) = none := by
  induction l with
  | nil => rfl
  | cons t l ih =>
      by_cases h : t.id = tid
      · simp [List.filter_cons, h, ih]
      · simp [List.filter_cons, List.find?_cons, h, ih]

theorem filter_eq_of_filter_ne (l : List Txn) (tid : Nat) :
    (l.filter (fun e => e.team_id != tid)).filter (fun e => e.team_id == tid) = [] := by
  induction l with
  | nil => rfl
  | cons e l ih =>
      by_cases h : e.team_id = tid
      · simp [List.filter_cons, h, ih]
      · simp [List.filter_cons, h, ih]

theorem filter_ne_idem (l : List Txn) (tid : Nat) :
    (l.filter (fun e => e.team_id != tid)).filter (fun e => e.team_id != tid) =
      l.filter (fun e => e.team_id != tid) := by
  induction l with
  | nil => rfl
  | cons e l ih =>
      by_cases h : e.team_id = tid
      · simp [List.filter_cons, h, ih]
      · simp [List.filter_cons, h, ih]

theorem ledger_inv_add_transaction (db : DB) (tid : Nat) (amt : Int) (r : String)
    (hinv : ledger_inv db) : ledger_inv (add_transaction db tid amt r) := by
  by_cases hx : db.teams.any (fun t => t.id == tid) = true
  · intro t' ht'
    simp only [add_transaction, insertTransactionStmt, updateBudgetStmt, hx, if_pos,
      ledgerSum] at ht' ⊢
    obtain ⟨t, ht, rfl⟩ := List.mem_map.1 ht'
    by_cases h : t.id = tid
    · simp [h, ledgerSumL_append, ledgerSumL, hinv t ht, ledgerSum]
    · simp [h, ledgerSumL_append, ledgerSumL, hinv t ht, ledgerSum, Ne.symm h]
  · intro t' ht'
    simp only [add_transaction, insertTransactionStmt, updateBudgetStmt, hx,
      if_neg, Bool.not_eq_true, ledgerSum] at ht' ⊢
    obtain ⟨t, ht, rfl⟩ := List.mem_map.1 ht'
    have hno : ∀ u ∈ db.teams, ¬ (u.id == tid) = true := by
      simpa [List.any_eq_false] using hx
    have h : ¬ t.id = tid := by simpa using hno t ht
    simp [h, hinv t ht, ledgerSum]

theorem ledger_inv_upgrade_stadium (db : DB) (tid lvl : Nat)
    (hinv : ledger_inv db) : ledger_inv (upgrade_stadium db tid lvl) := by
  intro t' ht'
  simp only [upgrade_stadium, ledgerSum] at ht' ⊢
  obtain ⟨t, ht, rfl⟩ := List.mem_map.1 ht'
  by_cases h : t.id = tid <;> simp [h, hinv t ht, ledgerSum]

theorem ledger_inv_update_team_manager (db : DB) (tid : Nat) (o : Int)
    (hinv : ledger_inv db) : ledger_inv (update_team_manager db tid o).1 := by
  by_cases hc : (db.teams.any (fun t => t.id == tid) &&
      db.teams.any (fun t => t.manager_id == o && t.id != tid)) = true
  · simpa [update_team_manager, hc] using hinv
  · intro t' ht'
    simp only [update_team_manager, hc, if_neg, Bool.not_eq_true, ledgerSum] at ht' ⊢
    obtain ⟨t, ht, rfl⟩ := List.mem_map.1 ht'
    by_cases h : t.id = tid <;> simp [h, hinv t ht, ledgerSum]

theorem ledger_inv_delete_team (db : DB) (tid : Nat)
    (hinv : ledger_inv db) : ledger_inv (delete_team db tid) := by
  intro t' ht'
  simp only [delete_team, deleteTransactionsStmt, deleteTeamStmt, ledgerSum] at ht' ⊢
  have hmem := List.mem_filter.1 ht'
  have hne : t'.id ≠ tid := by simpa using hmem.2
  rw [filter_ne_idem, ledgerSumL_filter_ne _ _ _ hne]
  exact hinv t' hmem.1

theorem ledger_inv_add_team_zero (db : DB) (n d : String) (o : Int)
    (hwf : WFDB db) (hinv : ledger_inv db) : ledger_inv (add_team db n d o 0).1 := by
  by_cases hc : db.teams.any (fun t => t.manager_id == o) = true
  · simpa [add_team, hc] using hinv
  · intro t' ht'
    simp only [add_team, hc, if_neg, Bool.not_eq_true, ledgerSum] at ht' ⊢
    rcases List.mem_append.1 ht' with hold | hnew
    · exact hinv t' hold
    · have ht'' := List.mem_singleton.1 hnew
      subst ht''
      simp [ledgerSumL_fresh db.transactions db.nextTeamId hwf.2]

theorem WFDB_add_team (db : DB) (n d : String) (o i : Int)
    (hwf : WFDB db) : WFDB (add_team db n d o i).1 := by
  by_cases hc : db.teams.any (fun t => t.manager_id == o) = true
  · simpa [add_team, hc] using hwf
  · constructor
    · intro t ht
      simp only [add_team, hc, if_neg, Bool.not_eq_true] at ht
      rcases List.mem_append.1 ht with hold | hnew
      · have := hwf.1 t hold; simp [add_team, hc]; omega
      · have := List.mem_singleton.1 hnew; subst this; simp [add_team, hc]
    · intro e he
      simp only [add_team, hc, if_neg, Bool.not_eq_true] at he
      have := hwf.2 e he; simp [add_team, hc]; omega

theorem WFDB_add_transaction (db : DB) (tid : Nat) (amt : Int) (r : String)
    (hwf : WFDB db) : WFDB (add_transaction db tid amt r) := by
  by_cases hx : db.teams.any (fun t => t.id == tid) = true
  · have htid : tid < db.nextTeamId := by
      obtain ⟨t, ht, hp⟩ := List.any_eq_true.1 hx
      have : t.id = tid := by simpa using hp
      have := hwf.1 t ht; omega
    constructor
    · intro t ht
      simp only [add_transaction, insertTransactionStmt, updateBudgetStmt, hx,
        if_pos] at ht ⊢
      obtain ⟨u, hu, rfl⟩ := List.mem_map.1 ht
      have hu' := hwf.1 u hu
      by_cases h : u.id = tid <;> simp [h] <;> omega
    · intro e he
      simp only [add_transaction, insertTransactionStmt, updateBudgetStmt, hx,
        if_pos] at he ⊢
      rcases List.mem_append.1 he with hold | hnew
      · exact hwf.2 e hold
      · have := List.mem_singleton.1 hnew; subst this; simpa using htid
  · constructor
    · intro t ht
      simp only [add_transaction, insertTransactionStmt, updateBudgetStmt, hx,
        if_neg, Bool.not_eq_true] at ht ⊢
      obtain ⟨u, hu, rfl⟩ := List.mem_map.1 ht
      have hu' := hwf.1 u hu
      by_cases h : u.id = tid <;> simp [h] <;> omega
    · intro e he
      simp only [add_transaction, insertTransactionStmt, updateBudgetStmt, hx,
        if_neg, Bool.not_eq_true] at he ⊢
      exact hwf.2 e he

theorem WFDB_upgrade_stadium (db : DB) (tid lvl : Nat)
    (hwf : WFDB db) : WFDB (upgrade_stadium db tid lvl) := by
  constructor
  · intro t ht
    simp only [upgrade_stadium] at ht ⊢
    obtain ⟨u, hu, rfl⟩ := List.mem_map.1 ht
    have hu' := hwf.1 u hu
    by_cases h : u.id = tid <;> simp [h] <;> omega
  · intro e he
    simp only [upgrade_stadium] at he ⊢
    exact hwf.2 e he

theorem WFDB_update_team_manager (db : DB) (tid : Nat) (o : Int)
    (hwf : WFDB db) : WFDB (update_team_manager db tid o).1 := by
  by_cases hc : (db.teams.any (fun t => t.id == tid) &&
      db.teams.any (fun t => t.manager_id == o && t.id != tid)) = true
  · simpa [update_team_manager, hc] using hwf
  · constructor
    · intro t ht
      simp only [update_team_manager, hc, if_neg, Bool.not_eq_true] at ht ⊢
      obtain ⟨u, hu, rfl⟩ := List.mem_map.1 ht
      have hu' := hwf.1 u hu
      by_cases h : u.id = tid <;> simp [h] <;> omega
    · intro e he
      simp only [update_team_manager, hc, if_neg, Bool.not_eq_true] at he ⊢
      exact hwf.2 e he

theorem WFDB_delete_team (db : DB) (tid : Nat)
    (hwf : WFDB db) : WFDB (delete_team db tid) := by
  constructor
  · intro t ht
    simp only [delete_team, deleteTransactionsStmt, deleteTeamStmt] at ht ⊢
    exact hwf.1 t (List.mem_filter.1 ht).1
  · intro e he
    simp only [delete_team, deleteTransactionsStmt, deleteTeamStmt] at he ⊢
    exact hwf.2 e (List.mem_filter.1 (List.mem_filter.1 he).1).1

theorem WFDB_applyOp (op : Op) (db : DB) (hwf : WFDB db) : WFDB (applyOp op db) := by
  cases op with
  | createClub n d o i => exact WFDB_add_team db n d o i hwf
  | appendTxn tid amt r => exact WFDB_add_transaction db tid amt r hwf
  | setTier tid lvl => exact WFDB_upgrade_stadium db tid lvl hwf
  | reassignOwner tid o => exact WFDB_update_team_manager db tid o hwf
  | deleteClub tid => exact WFDB_delete_team db tid hwf

theorem ledger_inv_applyOp (op : Op) (db : DB) (hwf : WFDB db)
    (hz : createsZeroInit op) (hinv : ledger_inv db) : ledger_inv (applyOp op db) := by
  cases op with
  | createClub n d o i =>
      have : i = 0 := hz n d o i rfl
      subst this
      exact ledger_inv_add_team_zero db n d o hwf hinv
  | appendTxn tid amt r => exact ledger_inv_add_transaction db tid amt r hinv
  | setTier tid lvl => exact ledger_inv_upgrade_stadium db tid lvl hinv
  | reassignOwner tid o => exact ledger_inv_update_team_manager db tid o hinv
  | deleteClub tid => exact ledger_inv_delete_team db tid hinv

theorem ledger_inv_applyOps (ops : List Op) (db : DB) (hwf : WFDB db)
    (hz : ∀ op ∈ ops, createsZeroInit op) (hinv : ledger_inv db) :
    ledger_inv (applyOps ops db) := by
  induction ops generalizing db with
  | nil => simpa [applyOps]
  | cons op ops ih =>
      have h1 := ledger_inv_applyOp op db hwf (hz op (by simp)) hinv
      have h2 := WFDB_applyOp op db hwf
      simpa [applyOps] using ih (applyOp op db) h2 (fun o ho => hz o (by simp [ho])) h1

/- ### Concrete stores used by counterexamples and witnesses -/

/-- One club, manager 10, balance 5000000 (= cost of tier 1), tier 0. -/
def dbTier0 : DB :=
  { teams := [{ id := 1, name := "FC", description := "d", manager_id := 10,
                budget := 5000000, stadium_level := 0 }],
    transactions := [], admins := [],
    settings := [("maintenance_mode", "OFF")],
    nextTeamId := 2, nextTxnId := 1, clock := 0 }

/-- One club, manager 42, balance 1000, tier 0; maintenance turned ON. -/
def dbMaint : DB :=
  { teams := [{ id := 1, name := "FC", description := "d", manager_id := 42,
                budget := 1000, stadium_level := 0 }],
    transactions := [], admins := [],
    settings := [("maintenance_mode", "ON")],
    nextTeamId := 2, nextTxnId := 1, clock := 0 }

/-- One club, manager 10, tier `MAX_STADIUM_LEVEL`. -/
def dbMaxTier : DB :=
  { teams := [{ id := 1, name := "FC", description := "d", manager_id := 10,
                budget := 1000, stadium_level := 3 }],
    transactions := [], admins := [],
    settings := [("maintenance_mode", "OFF")],
    nextTeamId := 2, nextTxnId := 1, clock := 0 }

/-- One club with balance 0 and no entries (the invariant holds). -/
def dbZero : DB :=
  { teams := [{ id := 1, name := "FC", description := "d", manager_id := 10,
                budget := 0, stadium_level := 0 }],
    transactions := [], admins := [],
    settings := [("maintenance_mode", "OFF")],
    nextTeamId := 2, nextTxnId := 1, clock := 0 }

/-- One club with one ledger entry matching its balance. -/
def dbOneTxn : DB :=
  { teams := [{ id := 1, name := "FC", description := "d", manager_id := 10,
                budget := 100, stadium_level := 0 }],
    transactions := [{ id := 1, team_id := 1, amount := 100, reason := "x", date := 0 }],
    admins := [],
    settings := [("maintenance_mode", "OFF")],
    nextTeamId := 2, nextTxnId := 2, clock := 1 }

/- ### C1 -/

/-- C1, as stated, is false at club creation: `add_team` stores the supplied
`initial_budget` without inserting any ledger entry, so a club created with a
non-zero `initialBalance` has `balance = 100` but an empty ledger — the
invariant `balance == sum(amount of its ledger entries)` fails immediately
after `createClub(..., 100)` on the fresh store. -/
theorem C1_ledger_inv_counterexample :
    (add_team initialDB "FC" "d" 7 100).2 = true ∧
    ¬ ledger_inv (add_team initialDB "FC" "d" 7 100).1 := by
  constructor
  · decide
  · decide

/-- C1 (amended): for every store whose ids respect the SERIAL discipline and
which satisfies the balance invariant, the invariant is preserved by every
sequence of `createClub` / `appendTransaction` / `setTier` / `reassignOwner` /
`deleteClub` operations in which every club creation carries a zero initial
balance; creation with a non-zero initial balance is exactly the operation
that breaks it. -/
theorem C1_ledger_inv_zero_init (ops : List Op) (db : DB)
    (hwf : WFDB db) (hz : ∀ op ∈ ops, createsZeroInit op)
    (hinv : ledger_inv db) : ledger_inv (applyOps ops db) :=
  ledger_inv_applyOps ops db hwf hz hinv

/-- Witness for C1 (amended) at a concrete run: create a club with balance 0,
post two transactions, change its tier, reassign it and finally delete it. -/
theorem C1_ledger_inv_zero_init_witness :
    ledger_inv (applyOps
      [Op.createClub "FC" "d" 7 0, Op.appendTxn 1 100 "x", Op.setTier 1 1,
       Op.appendTxn 1 (-30) "y", Op.reassignOwner 1 8, Op.deleteClub 1]
      initialDB) :=
  C1_ledger_inv_zero_init _ initialDB (by decide) (by decide) (by decide)

/- ### C2 -/

/-- C2, as stated, is false: `add_transaction` runs its INSERT and its budget
UPDATE as two separate statements, so the state after the INSERT alone — an
execution point a crash or concurrent reader can observe — has the ledger
entry (sum 100) while the stored balance is still 0, and it is a third state
distinct from both the pre-state and the post-state. -/
theorem C2_atomicity_counterexample :
    insertTransactionStmt dbZero 1 100 "sponsor"
        ∈ add_transaction_states dbZero 1 100 "sponsor" ∧
    ledgerSum (insertTransactionStmt dbZero 1 100 "sponsor") 1 = 100 ∧
    (get_team_by_id (insertTransactionStmt dbZero 1 100 "sponsor") 1).map Team.budget
        = some 0 ∧
    insertTransactionStmt dbZero 1 100 "sponsor" ≠ dbZero ∧
    insertTransactionStmt dbZero 1 100 "sponsor" ≠ add_transaction dbZero 1 100 "sponsor" := by
  refine ⟨by decide, by decide, by decide, by decide, by decide⟩

/-- C2 (amended): for an existing club, `add_transaction` is the INSERT
followed by the budget UPDATE, two separate statements; after both the entry
is recorded and the balance incremented by the amount, but at the observable
point between them the entry is already recorded while the balance is
unchanged (a failure there leaves the entry without the balance update); the
method returns no balance. -/
theorem C2_two_statements (db : DB) (tid : Nat) (amt : Int) (r : String) (team : Team)
    (hteam : get_team_by_id db tid = some team) :
    (get_team_by_id (add_transaction db tid amt r) tid).map Team.budget
        = some (team.budget + amt) ∧
    ledgerSum (add_transaction db tid amt r) tid = ledgerSum db tid + amt ∧
    ledgerSum (insertTransactionStmt db tid amt r) tid = ledgerSum db tid + amt ∧
    (get_team_by_id (insertTransactionStmt db tid amt r) tid).map Team.budget
        = some team.budget ∧
    add_transaction db tid amt r
        = updateBudgetStmt (insertTransactionStmt db tid amt r) tid amt := by
  have hfind : db.teams.find? (fun t => t.id == tid) = some team := hteam
  have hmem := List.mem_of_find?_eq_some hfind
  have hpred := List.find?_some hfind
  have hid : team.id = tid := by simpa using hpred
  have hany : db.teams.any (fun t => t.id == tid) = true :=
    List.any_eq_true.2 ⟨team, hmem, hpred⟩
  have hf : ∀ t : Team,
      ((fun t => if (t.id == tid) = true
          then { t with budget := t.budget + amt } else t) t).id = t.id := by
    intro t; by_cases h : t.id = tid <;> simp [h]
  refine ⟨?_, ?_, ?_, ?_, rfl⟩
  · simp only [add_transaction, insertTransactionStmt, updateBudgetStmt, hany, if_pos,
      get_team_by_id]
    rw [find?_map_id_pres _ _ hf]
    simp only [get_team_by_id] at hteam
    simp [hteam, hid]
  · simp only [add_transaction, insertTransactionStmt, updateBudgetStmt, hany, if_pos,
      ledgerSum]
    simp [ledgerSumL_append, ledgerSumL]
  · simp only [insertTransactionStmt, hany, if_pos, ledgerSum]
    simp [ledgerSumL_append, ledgerSumL]
  · simp only [insertTransactionStmt, hany, if_pos, get_team_by_id]
    simp only [get_team_by_id] at hteam
    simp [hteam]
  
/-- Witness for C2 (amended) at a concrete store. -/
theorem C2_two_statements_witness :
    (get_team_by_id (add_transaction dbZero 1 100 "sponsor") 1).map Team.budget
        = some 100 ∧
    ledgerSum (add_transaction dbZero 1 100 "sponsor") 1 = 100 := by
  have h := C2_two_statements dbZero 1 100 "sponsor"
    { id := 1, name := "FC", description := "d", manager_id := 10,
      budget := 0, stadium_level := 0 } (by decide)
  exact ⟨by simpa using h.1, by simpa using h.2.1⟩

/- ### C3 -/

/-- C3: the code cannot exhibit the claimed one-success/one-failure outcome,
because `usr_do_upgrade_stadium` passes two arguments to the three-parameter
method `upgrade_stadium` — a `TypeError` raised after the affordability check
and before any store write.  For a club whose balance (5000000) exactly equals
the cost of tier 1, both of two upgrade requests (in whichever order they are
served) raise, neither succeeds, no `InsufficientFunds` is reported, and the
balance stays 5000000 instead of dropping to 0. -/
theorem C3_double_upgrade_both_raise :
    (STADIUM_LEVELS 1).map StadiumInfo.cost = some 5000000 ∧
    (get_team_by_user dbTier0 10).map Team.budget = some 5000000 ∧
    usr_do_upgrade_stadium dbTier0 10 1
      = (dbTier0,
         .error (.typeError "upgrade_stadium missing required positional argument")) ∧
    usr_do_upgrade_stadium (usr_do_upgrade_stadium dbTier0 10 1).1 10 1
      = (dbTier0,
         .error (.typeError "upgrade_stadium missing required positional argument")) ∧
    (usr_do_upgrade_stadium dbTier0 10 1).2 ≠ .ok [.alertInsufficientFunds] := by
  refine ⟨by decide, by decide, by decide, by decide, by decide⟩

/- ### C4 -/

/-- C4, as stated, is false: the maintenance gate lives only in `cmd_start`.
With maintenance ON, the plain manager 42 (not the owner 999, not an admin)
tapping the club-info action is served the normal club report, not the
generic unavailable message. -/
theorem C4_maintenance_counterexample :
    check_is_admin 999 dbMaint 42 = false ∧
    maintenance_is_on dbMaint = true ∧
    dispatch 999 dbMaint 42 .usrInfo
      = (dbMaint, .ok [.clubInfo "FC" "d" 1000 "Базовый стадион" 10000]) ∧
    dispatch 999 dbMaint 42 .usrInfo ≠ (dbMaint, .ok [.maintenanceUnavailable]) := by
  refine ⟨by decide, by decide, by decide, by decide⟩

/-- C4 (amended): only the `/start` entry point enforces the maintenance
gate — there a plain actor gets the single generic unavailable message and
nothing happens, while Owner and Admin actors bypass the gate; the callback
actions (e.g. the club report) are served normally even while maintenance is
ON. -/
theorem C4_maintenance_gate (ownerId : Int) (db : DB) (uid : Int) :
    (check_is_admin ownerId db uid = false → maintenance_is_on db = true →
       cmd_start ownerId db uid = (db, [.maintenanceUnavailable])) ∧
    (check_is_admin ownerId db uid = true →
       cmd_start ownerId db uid = (db, [.adminGreeting (uid == ownerId)])) ∧
    (∀ team info, get_team_by_user db uid = some team →
       STADIUM_LEVELS team.stadium_level = some info → maintenance_is_on db = true →
       usr_show_info db uid
         = (db, .ok [.clubInfo team.name team.description team.budget
                      info.name info.capacity])) := by
  refine ⟨?_, ?_, ?_⟩
  · intro hplain hon
    simp [cmd_start, hplain, hon]
  · intro hadmin
    simp [cmd_start, hadmin]
  · intro team info hteam hinfo _
    simp [usr_show_info, hteam, hinfo]

/-- Witness for C4 (amended): plain actor 42 blocked at `/start`, owner 999
greeted, and the same plain actor served the club report by the info action,
all with maintenance ON. -/
theorem C4_maintenance_gate_witness :
    cmd_start 999 dbMaint 42 = (dbMaint, [.maintenanceUnavailable]) ∧
    cmd_start 999 dbMaint 999 = (dbMaint, [.adminGreeting true]) ∧
    usr_show_info dbMaint 42
      = (dbMaint, .ok [.clubInfo "FC" "d" 1000 "Базовый стадион" 10000]) :=
  ⟨(C4_maintenance_gate 999 dbMaint 42).1 (by decide) (by decide),
   by simpa using (C4_maintenance_gate 999 dbMaint 999).2.1 (by decide),
   by
     simpa using (C4_maintenance_gate 999 dbMaint 42).2.2
       { id := 1, name := "FC", description := "d", manager_id := 42,
         budget := 1000, stadium_level := 0 }
       { name := "Базовый стадион", capacity := 10000, cost := 0 }
       (by decide) (by decide) (by decide)⟩

/- ### C5 -/

/-- C5, as stated, is false in its error kind: at `MAX_STADIUM_LEVEL` the menu
handler does refuse with the terminal-tier text, but a direct upgrade request
targeting tier 4 (beyond `MAX_TIER`) raises `KeyError` at the
`STADIUM_LEVELS[new_level]` lookup — an unclassified error, not the
terminal-tier refusal the menu shows — though the store is indeed left
unchanged. -/
theorem C5_terminal_tier_counterexample :
    (get_team_by_user dbMaxTier 10).map Team.stadium_level = some MAX_STADIUM_LEVEL ∧
    usr_show_upgrade_stadium dbMaxTier 10 = (dbMaxTier, .ok [.maxStadium "Крупный" 80000]) ∧
    usr_do_upgrade_stadium dbMaxTier 10 4 = (dbMaxTier, .error (.keyErrorNat 4)) ∧
    (usr_do_upgrade_stadium dbMaxTier 10 4).2 ≠ (usr_show_upgrade_stadium dbMaxTier 10).2 := by
  refine ⟨by decide, by decide, by decide, by decide⟩

/-- Looking up a level beyond the table yields no row. -/
theorem STADIUM_LEVELS_eq_none (lvl : Nat) (h : MAX_STADIUM_LEVEL < lvl) :
    STADIUM_LEVELS lvl = none := by
  unfold MAX_STADIUM_LEVEL at h
  rcases lvl with _ | _ | _ | _ | n
  · omega
  · omega
  · omega
  · omega
  · rfl

/-- C5 (amended): for a club already at `MAX_STADIUM_LEVEL` the upgrade menu
answers with the terminal-tier text and the store is unchanged; a direct
upgrade request for a tier beyond `MAX_STADIUM_LEVEL` raises `KeyError` at
the tier-table lookup, before any store write, so balance and tier are
likewise unchanged. -/
theorem C5_terminal_tier (db : DB) (uid : Int) :
    (∀ team cur, get_team_by_user db uid = some team →
       STADIUM_LEVELS team.stadium_level = some cur →
       MAX_STADIUM_LEVEL ≤ team.stadium_level →
       usr_show_upgrade_stadium db uid = (db, .ok [.maxStadium cur.name cur.capacity])) ∧
    (∀ team lvl, get_team_by_user db uid = some team → MAX_STADIUM_LEVEL < lvl →
       usr_do_upgrade_stadium db uid lvl = (db, .error (.keyErrorNat lvl))) := by
  constructor
  · intro team cur hteam hcur hmax
    simp [usr_show_upgrade_stadium, hteam, hcur, hmax]
  · intro team lvl hteam hlvl
    simp [usr_do_upgrade_stadium, hteam, STADIUM_LEVELS_eq_none lvl hlvl]

/-- Witness for C5 (amended) at the concrete max-tier club. -/
theorem C5_terminal_tier_witness :
    usr_show_upgrade_stadium dbMaxTier 10 = (dbMaxTier, .ok [.maxStadium "Крупный" 80000]) ∧
    usr_do_upgrade_stadium dbMaxTier 10 4 = (dbMaxTier, .error (.keyErrorNat 4)) :=
  ⟨by
     simpa using (C5_terminal_tier dbMaxTier 10).1
       { id := 1, name := "FC", description := "d", manager_id := 10,
         budget := 1000, stadium_level := 3 }
       { name := "Крупный", capacity := 80000, cost := 35000000 }
       (by decide) (by decide) (by decide),
   (C5_terminal_tier dbMaxTier 10).2
       { id := 1, name := "FC", description := "d", manager_id := 10,
         budget := 1000, stadium_level := 3 }
       4 (by decide) (by decide)⟩

/- ### C6 -/

/-- C6: `add_team` fails (returning `false`, store untouched) exactly when
some club already has the requested manager; otherwise it appends the new
club with tier (`stadium_level`) 0 and the fresh SERIAL id, leaving every
existing club as it was. -/
theorem C6_create_club (db : DB) (n d : String) (m i : Int) :
    ((∃ t ∈ db.teams, t.manager_id = m) → add_team db n d m i = (db, false)) ∧
    ((¬ ∃ t ∈ db.teams, t.manager_id = m) →
       add_team db n d m i =
         ({ db with
             teams := db.teams ++
               [{ id := db.nextTeamId, name := n, description := d,
                  manager_id := m, budget := i, stadium_level := 0 }],
             nextTeamId := db.nextTeamId + 1 },
          true)) := by
  constructor
  · intro hex
    have hany : db.teams.any (fun t => t.manager_id == m) = true := by
      obtain ⟨t, ht, he⟩ := hex
      exact List.any_eq_true.2 ⟨t, ht, by simpa using he⟩
    simp [add_team, hany]
  · intro hnex
    have hany : db.teams.any (fun t => t.manager_id == m) = false := by
      rw [List.any_eq_false]
      intro t ht
      simp only [beq_iff_eq]
      exact fun he => hnex ⟨t, ht, by simpa using he⟩
    simp [add_team, hany]

/-- Witness for C6: the duplicate-manager creation is refused with the store
untouched, and a fresh-manager creation appends a tier-0 club. -/
theorem C6_create_club_witness :
    add_team dbZero "FC2" "d2" 10 500 = (dbZero, false) ∧
    ((add_team initialDB "FC" "d" 7 100).1.teams =
       [{ id := 1, name := "FC", description := "d", manager_id := 7,
          budget := 100, stadium_level := 0 }] ∧
     (add_team initialDB "FC" "d" 7 100).2 = true) := by
  refine ⟨(C6_create_club dbZero "FC2" "d2" 10 500).1 ?_, ?_⟩
  · exact ⟨{ id := 1, name := "FC", description := "d", manager_id := 10,
             budget := 0, stadium_level := 0 }, by decide, by decide⟩
  · have h := (C6_create_club initialDB "FC" "d" 7 100).2 (by decide)
    rw [h]
    exact ⟨rfl, rfl⟩

/- ### C7 -/

/-- C7, as stated, is false in its atomicity: `delete_team` is two DELETE
statements on separate connections, and the state after the first alone — an
execution point a crash or concurrent reader can observe — has the club still
present while all its ledger entries are already gone: a third state distinct
from both the pre-state and the post-state. -/
theorem C7_delete_atomicity_counterexample :
    delete_team dbOneTxn 1 = deleteTeamStmt (deleteTransactionsStmt dbOneTxn 1) 1 ∧
    deleteTransactionsStmt dbOneTxn 1 ∈ delete_team_states dbOneTxn 1 ∧
    deleteTransactionsStmt dbOneTxn 1 ≠ dbOneTxn ∧
    deleteTransactionsStmt dbOneTxn 1 ≠ delete_team dbOneTxn 1 ∧
    (get_team_by_id (deleteTransactionsStmt dbOneTxn 1) 1).isSome = true ∧
    get_transactions (deleteTransactionsStmt dbOneTxn 1) 1 none = [] := by
  refine ⟨rfl, by decide, by decide, by decide, by decide, by decide⟩

/-- C7 (amended): the delete handler re-reads the selected club: when absent
it reports not-found and changes nothing; when present it runs the two DELETE
statements (entries first, then the club), after which the listed
transactions of the club are empty, the club is gone, and exactly the rows
and entries remain — but the point between the two statements is observable,
with the club still present and its entries already gone. -/
theorem C7_delete_club (db : DB) (s : Session) (tid : Nat)
    (hs : s.data.team_id = some tid) :
    (get_team_by_id db tid = none → adm_execute_delete db s = (db, s, [.deleteNotFound])) ∧
    (∀ team, get_team_by_id db tid = some team →
       adm_execute_delete db s
         = (delete_team db tid, clearSession, [.deleteSuccess team.name tid]) ∧
       get_team_by_id (delete_team db tid) tid = none ∧
       (∀ ty, get_transactions (delete_team db tid) tid ty = []) ∧
       (delete_team db tid).teams = db.teams.filter (fun t => t.id != tid) ∧
       (delete_team db tid).transactions
         = db.transactions.filter (fun e => e.team_id != tid)) := by
  constructor
  · intro hnone
    simp [adm_execute_delete, hs, hnone]
  · intro team hsome
    refine ⟨by simp [adm_execute_delete, hs, hsome], ?_, ?_, rfl, ?_⟩
    · simp only [get_team_by_id, delete_team, deleteTransactionsStmt, deleteTeamStmt]
      exact find?_filter_ne db.teams tid
    · intro ty
      have hbase :
          (delete_team db tid).transactions.filter (fun e => e.team_id == tid) = [] := by
        simp only [delete_team, deleteTransactionsStmt, deleteTeamStmt]
        rw [filter_ne_idem]
        exact filter_eq_of_filter_ne db.transactions tid
      cases ty with
      | none => simp [get_transactions, hbase, sortByDateDesc]
      | some k => cases k <;> simp [get_transactions, hbase, sortByDateDesc]
    · simp only [delete_team, deleteTransactionsStmt, deleteTeamStmt]
      exact filter_ne_idem db.transactions tid

/-- Witness for C7 (amended): deleting the selected club 1 of the concrete
store, and the not-found branch for an unselected id. -/
theorem C7_delete_club_witness :
    adm_execute_delete dbOneTxn
        { state := .waiting_team_select,
          data := { emptyData with team_id := some 1 } }
      = (delete_team dbOneTxn 1, clearSession, [.deleteSuccess "FC" 1]) ∧
    adm_execute_delete dbOneTxn
        { state := .waiting_team_select,
          data := { emptyData with team_id := some 7 } }
      = (dbOneTxn,
         { state := .waiting_team_select,
           data := { emptyData with team_id := some 7 } },
         [.deleteNotFound]) := by
  constructor
  · exact ((C7_delete_club dbOneTxn _ 1 rfl).2
      { id := 1, name := "FC", description := "d", manager_id := 10,
        budget := 100, stadium_level := 0 } (by decide)).1
  · exact (C7_delete_club dbOneTxn _ 7 rfl).1 (by decide)

/- ### C8 -/

/-- C8: in the create-club workflow, a non-digit manager id leaves the session
at `waiting_manager_id` with no field stored, while a digit input stores
`manager_id` and advances to `waiting_budget`; a non-numeric budget leaves the
session at `waiting_budget` with no field stored and the store untouched,
while a numeric budget performs the commit (`add_team`) and ends the flow by
clearing the session. -/
theorem C8_validation_pins_step (db : DB) (s : Session) (txt : String) :
    (s.state = .waiting_manager_id → pyIsDigit txt = false →
       adm_set_manager s txt = (s, [.idMustBeDigits])) ∧
    (pyIsDigit txt = true →
       adm_set_manager s txt
         = ({ state := .waiting_budget,
              data := { s.data with manager_id := some (Int.ofNat (strToNat txt)) } },
            [.askBudget])) ∧
    (s.state = .waiting_budget → pyNumber txt = none →
       adm_finish_team db s txt = (db, s, .ok [.budgetMustBeNumber])) ∧
    (∀ b nm ds mgr, pyNumber txt = some b → s.data.name = some nm →
       s.data.desc = some ds → s.data.manager_id = some mgr →
       (adm_finish_team db s txt).2.1 = clearSession ∧
       (adm_finish_team db s txt).1 = (add_team db nm ds mgr b).1) := by
  refine ⟨?_, ?_, ?_, ?_⟩
  · intro _ hbad
    simp [adm_set_manager, hbad]
  · intro hok
    simp [adm_set_manager, hok]
  · intro _ hbad
    simp [adm_finish_team, hbad]
  · intro b nm ds mgr hb hn hd hm
    by_cases hsucc : (add_team db nm ds mgr b).2 = true <;>
      simp [adm_finish_team, hb, hn, hd, hm, hsucc]

/-- The create-club session paused at the manager step, name and description
already collected. -/
def managerStepSession : Session :=
  { state := .waiting_manager_id,
    data := { emptyData with name := some "FC", desc := some "d" } }

/-- The create-club session paused at the budget step. -/
def budgetStepSession : Session :=
  { state := .waiting_budget,
    data := { emptyData with
              name := some "FC", desc := some "d", manager_id := some 77 } }

/-- Witness for C8: at the manager step, "12a" re-prompts in place and "77"
stores the id and advances; at the budget step, "lots" re-prompts in place
and "-500" commits and clears. -/
theorem C8_validation_pins_step_witness :
    adm_set_manager managerStepSession "12a" = (managerStepSession, [.idMustBeDigits]) ∧
    adm_set_manager managerStepSession "77" = (budgetStepSession, [.askBudget]) ∧
    adm_finish_team initialDB budgetStepSession "lots"
      = (initialDB, budgetStepSession, .ok [.budgetMustBeNumber]) ∧
    (adm_finish_team initialDB budgetStepSession "-500").2.1 = clearSession := by
  refine ⟨?_, ?_, ?_, ?_⟩
  · exact (C8_validation_pins_step initialDB managerStepSession "12a").1 rfl (by decide)
  · have h := (C8_validation_pins_step initialDB managerStepSession "77").2.1 (by decide)
    rw [h]
    decide
  · exact (C8_validation_pins_step initialDB budgetStepSession "lots").2.2.1 rfl (by decide)
  · exact ((C8_validation_pins_step initialDB budgetStepSession "-500").2.2.2
      (-500) "FC" "d" 77 (by decide) rfl rfl rfl).1

/- ### C9 -/

/-- The session of an administrator mid `Adjust-budget` flow, at the reason
step with the target club and the amount accumulated. -/
def moneySession : Session :=
  { state := .waiting_trans_reason,
    data := { emptyData with team_id := some 1, amount := some (-50) } }

/-- C9, as stated, is false: in `adm_money_finish` only the notification send
is guarded by `try/except`; a store failure raised by the `add_transaction`
commit propagates out of the handler before `state.clear()` is reached, so
the session is left pinned at `waiting_trans_reason` with its data — not
cleared. -/
theorem C9_commit_failure_counterexample :
    adm_money_finish dbZero true false "rent" moneySession
      = (dbZero, moneySession, .error .connectionError) ∧
    moneySession ≠ clearSession ∧
    moneySession.state = .waiting_trans_reason := by
  refine ⟨by decide, by decide, rfl⟩

/-- C9 (amended): a failure raised by the `add_transaction` commit propagates
and leaves the session exactly as it was (not cleared); on the normal path the
handler clears the session even when the best-effort notification send fails,
since only that send is wrapped in `try/except`. -/
theorem C9_session_after_commit (db : DB) (s : Session) (tid : Nat) (amt : Int)
    (r : String) (nf : Bool)
    (htid : s.data.team_id = some tid) (hamt : s.data.amount = some amt) :
    adm_money_finish db true nf r s = (db, s, .error .connectionError) ∧
    (∀ team, get_team_by_id (add_transaction db tid amt r) tid = some team →
       (adm_money_finish db false nf r s).2.1 = clearSession) := by
  constructor
  · simp [adm_money_finish, htid, hamt]
  · intro team hteam
    cases nf <;> simp [adm_money_finish, htid, hamt, hteam]

/-- Witness for C9 (amended): the commit failure leaves the concrete session
pinned; the successful commit clears it even with the notification failing. -/
theorem C9_session_after_commit_witness :
    adm_money_finish dbZero true true "rent" moneySession
      = (dbZero, moneySession, .error .connectionError) ∧
    (adm_money_finish dbZero false true "rent" moneySession).2.1 = clearSession := by
  constructor
  · exact (C9_session_after_commit dbZero moneySession 1 (-50) "rent" true
      rfl rfl).1
  · exact (C9_session_after_commit dbZero moneySession 1 (-50) "rent" true
      rfl rfl).2
      { id := 1, name := "FC", description := "d", manager_id := 10,
        budget := -50, stadium_level := 0 } (by decide)

/- ### C10 -/

/-- C10: whenever a club is found and affords the cost of the requested tier, the
handler reaches the store call `db.upgrade_stadium(team_id, new_level)` — two
arguments for a three-parameter method — so the attempt raises `TypeError`
with no store write: the returned store is the input store, the tier is never
changed and no cost is deducted through this handler. -/
theorem C10_upgrade_call_arity (db : DB) (uid : Int) (lvl : Nat) (team : Team)
    (info : StadiumInfo)
    (hteam : get_team_by_user db uid = some team)
    (hlvl : STADIUM_LEVELS lvl = some info)
    (hafford : info.cost ≤ team.budget) :
    usr_do_upgrade_stadium db uid lvl
      = (db, .error (.typeError "upgrade_stadium missing required positional argument")) := by
  simp [usr_do_upgrade_stadium, hteam, hlvl, not_lt.2 hafford, upgrade_stadium_apply]

/-- Witness for C10: the concrete affordable upgrade request raises the arity
`TypeError` and leaves the store untouched. -/
theorem C10_upgrade_call_arity_witness :
    usr_do_upgrade_stadium dbTier0 10 1
      = (dbTier0,
         .error (.typeError "upgrade_stadium missing required positional argument")) :=
  C10_upgrade_call_arity dbTier0 10 1
    { id := 1, name := "FC", description := "d", manager_id := 10,
      budget := 5000000, stadium_level := 0 }
    { name := "Малый", capacity := 25000, cost := 5000000 }
    (by decide) (by decide) (by decide)
